import Mathlib

/-!
# ffi_demo.c : image buffers, FITS export and the driver

A shallow embedding of `examples/ffi_demo/src/ffi_demo.c`.

* C `int` is a 32-bit and C `long` a 64-bit two's-complement integer (LP64);
  arithmetic on them is modelled on `Int` followed by an explicit wrap-around.
* The header `arlwrap.h` is not among the sources: the integer type of the
  field `size` of an image is a parameter of the model.
* The C heap is an explicit state: the list of live blocks, a log of the calls
  to `free`, and a list that says which of the coming allocation requests the
  allocator refuses.
* The cfitsio routines and `mkdir` are external: they are parameters of the
  model.  Every call made to them is logged, in order, with its arguments.
-/

namespace FfiDemo

/-! ## Machine integers -/

/-- Wrap-around of an integer to a 32-bit two's-complement C `int`. -/
def int32 (x : Int) : Int := (x + 2147483648) % 4294967296 - 2147483648

/-- Wrap-around of an integer to a 64-bit two's-complement C `long`. -/
def int64 (x : Int) : Int :=
  (x + 9223372036854775808) % 18446744073709551616 - 9223372036854775808

/-- Conversion of a signed integer to `size_t` (64-bit unsigned). -/
def to_size_t (x : Int) : Nat := (x % 18446744073709551616).toNat

/-- The first value that a `size_t` cannot hold. -/
def SIZE_LIMIT : Nat := 18446744073709551616

/-- A C integer type, by its width in bits and its signedness. -/
structure IntType where
  bits : Nat
  signed : Bool
deriving DecidableEq, Repr

/-- The least value of the type. -/
def IntType.min_value (t : IntType) : Int :=
  if t.signed then -(2 ^ (t.bits - 1)) else 0

/-- The greatest value of the type. -/
def IntType.max_value (t : IntType) : Int :=
  t.min_value + 2 ^ t.bits - 1

/-- Wrap-around of an integer to the type: the value of the type that differs
from it by a multiple of `2 ^ bits`. -/
def IntType.wrap (t : IntType) (x : Int) : Int :=
  (x - t.min_value) % 2 ^ t.bits + t.min_value

/-- The C type `int`. -/
def c_int : IntType := { bits := 32, signed := true }

/-- The C type `unsigned int`. -/
def c_unsigned_int : IntType := { bits := 32, signed := false }

/-- The C type `long`. -/
def c_long : IntType := { bits := 64, signed := true }

/-- The C type `size_t` (`unsigned long`). -/
def c_size_t : IntType := { bits := 64, signed := false }

/-! ## The heap -/

/-- An address; `NULL` is address 0. -/
abbrev Ptr := Nat

/-- The null pointer. -/
def NULL : Ptr := 0

/-- One allocated block.  `cells` are its elements when they are determined
(`calloc` gives zeros); `none` stands for the indeterminate content `malloc`
leaves.  A cell of a `double` array is the 64-bit pattern of the element. -/
structure Block where
  addr : Ptr
  nbytes : Nat
  cells : Option (List Nat)
deriving DecidableEq, Repr

/-- The allocator state.  `grants` lists the answers to the coming allocation
requests (`false`: the request is refused and `NULL` returned; past the end of
the list every request is granted).  `frees` logs the argument of every call
to `free`, and `fault` is raised by a `free` of a pointer that is neither
`NULL` nor live. -/
structure Heap where
  live : List Block
  next : Nat
  grants : List Bool
  frees : List Ptr
  fault : Bool
deriving DecidableEq, Repr

/-- One allocation request of `nbytes` bytes with the given initial content. -/
def Heap.alloc (h : Heap) (nbytes : Nat) (cells : Option (List Nat)) : Ptr × Heap :=
  match h.grants with
  | false :: gs => (NULL, { h with grants := gs })
  | gs =>
    (h.next + 1,
      { h with live := ⟨h.next + 1, nbytes, cells⟩ :: h.live,
               next := h.next + 1,
               grants := gs.tail })

/-- The C `malloc(size)`: the content of the block is indeterminate. -/
def Heap.malloc (h : Heap) (size : Nat) : Ptr × Heap :=
  h.alloc size none

/-- The content of a zeroed array of `nmemb` elements. -/
def zeroed (nmemb : Nat) : Option (List Nat) := some (List.replicate nmemb 0)

/-- The C `calloc(nmemb, size)`: `nmemb` zeroed elements of `size` bytes; the
request is refused when `nmemb * size` does not fit a `size_t`. -/
def Heap.calloc (h : Heap) (nmemb size : Nat) : Ptr × Heap :=
  if nmemb * size ≥ SIZE_LIMIT then (NULL, { h with grants := h.grants.tail })
  else h.alloc (nmemb * size) (zeroed nmemb)

/-- The C `free(p)`: `free(NULL)` does nothing; a live block is released; any
other pointer is an invalid (or double) free. -/
def Heap.free (h : Heap) (p : Ptr) : Heap :=
  if p = NULL then { h with frees := h.frees ++ [p] }
  else if h.live.any (fun b => b.addr = p) then
    { h with live := h.live.eraseP (fun b => b.addr = p), frees := h.frees ++ [p] }
  else { h with frees := h.frees ++ [p], fault := true }

/-- The live block at address `p`, if any. -/
def Heap.block (h : Heap) (p : Ptr) : Option Block :=
  h.live.find? (fun b => b.addr = p)

/-- The first `n` elements stored at address `p`: what a routine handed the
pointer `p` and the count `n` reads. -/
def Heap.elements (h : Heap) (p : Ptr) (n : Int) : List Nat :=
  match h.block p with
  | some b => (b.cells.getD []).take n.toNat
  | none => []

/-! ## Ways a run can end -/

/-- How a piece of the program ends: it returns a value, it calls
`exit(code)` after writing `stderr`, or it goes through a null pointer. -/
inductive Outcome (α : Type) where
  | returned (a : α)
  | exit (code : Int) (stderr : List String)
  | null_deref

/-! ## Images -/

/-- A 4-element `int` array. -/
abbrev Shape := Fin 4 → Int

/-- Modelled from the spec: the `Image` record of `arlwrap.h` (the header is
not part of the sources): `size`, `data_shape[4]`, and the three owned buffers
`data`, `wcs`, `polarisation_frame`.  The integer type of `size` is declared
in the header: it is a parameter of `allocate_image`.  `addr` is the address
of the record itself. -/
structure Image where
  addr : Ptr
  size : Int
  data_shape : Shape
  data : Ptr
  wcs : Ptr
  polarisation_frame : Ptr

/-- One turn of the loop of `allocate_image`:
`image->data_shape[i] = shape[i]; image->size *= shape[i];`.  `size_type` is
the integer type of the field `size`: the product is stored wrapped to it. -/
def allocate_image_step (size_type : IntType) (shape : Shape) (image : Image)
    (i : Fin 4) : Image :=
  { image with
    data_shape := Function.update image.data_shape i (shape i),
    size := size_type.wrap (image.size * shape i) }

/-- The function `allocate_image` (lines 115-132).  `size_type` is the integer
type of the field `size` and `sizeof_Image` is `sizeof(Image)`, both fixed by
the header.  No allocation result is tested: when `malloc` returns `NULL`
the store `image->size = 1` goes through the null pointer; a `NULL` from one
of the three `calloc`s is stored in the record as it is.  Fields of the fresh
record not assigned yet are shown as 0; each one is assigned before the
return. -/
def allocate_image (size_type : IntType) (sizeof_Image : Nat) (h : Heap)
    (shape : Shape) : Outcome (Heap × Image) :=
  let (p, h1) := h.malloc sizeof_Image
  if p = NULL then .null_deref
  else
    let image0 : Image :=
      { addr := p, size := 1, data_shape := fun _ => 0,
        data := NULL, wcs := NULL, polarisation_frame := NULL }
    let image1 := List.foldl (allocate_image_step size_type shape) image0 [0, 1, 2, 3]
    let (data, h2) := h1.calloc (to_size_t image1.size) 8
    let (wcs, h3) := h2.calloc 2996 1
    let (pf, h4) := h3.calloc 114 1
    .returned (h4, { image1 with data := data, wcs := wcs, polarisation_frame := pf })

/-- The function `destroy_image` (lines 134-141): four calls to `free`, then
`return NULL`. -/
def destroy_image (h : Heap) (image : Image) : Heap × Ptr :=
  let h1 := h.free image.data
  let h2 := h1.free image.wcs
  let h3 := h2.free image.polarisation_frame
  let h4 := h3.free image.addr
  (h4, NULL)

/-! ## The external routines -/

/-- A `fitsfile *` handle. -/
abbrev Fptr := Nat

/-- The file access modes of `fitsio.h`. -/
inductive IOMode where
  | READONLY | READWRITE
deriving DecidableEq, Repr

/-- The image types (`bitpix`) of `fitsio.h`. -/
inductive ImgType where
  | BYTE_IMG | SHORT_IMG | LONG_IMG | LONGLONG_IMG | FLOAT_IMG | DOUBLE_IMG
deriving DecidableEq, Repr

/-- The data types of `fitsio.h` for the array handed to a write. -/
inductive DataType where
  | TBYTE | TSHORT | TINT | TLONG | TFLOAT | TDOUBLE
deriving DecidableEq, Repr

/-- A call to an external routine, with the arguments passed by value.  The
`&status` argument (and `stderr`) is left out; `fits_report_error` carries the
status it is given. -/
inductive Call where
  | mkdir (path : String) (mode : Nat)
  | fits_file_exists (filename : String)
  | fits_open_file (filename : String) (iomode : IOMode)
  | fits_create_file (filename : String)
  | fits_create_img (fptr : Fptr) (bitpix : ImgType) (naxis : Int) (naxes : List Int)
  | fits_write_img (fptr : Fptr) (datatype : DataType) (firstelem : Int)
      (nelements : Int) (array : Ptr)
  | fits_close_file (fptr : Fptr)
  | fits_report_error (status : Int)
deriving DecidableEq, Repr

/-- The external routines, over a state `σ` of the outside world (the file
system, the standard error stream).  A routine with a `&status` argument takes
the current status and gives the new one; the out-parameters `exists` and
`fptr` are results.  `fits_write_img` reads the program's memory. -/
structure Extern (σ : Type) where
  mkdir : String → Nat → σ → σ × Int
  fits_file_exists : String → σ → Int → σ × Int × Int
  fits_open_file : String → IOMode → σ → Int → σ × Fptr × Int
  fits_create_file : String → σ → Int → σ × Fptr × Int
  fits_create_img : Fptr → ImgType → Int → List Int → σ → Int → σ × Int
  fits_write_img : Fptr → DataType → Int → Int → Ptr → Heap → σ → Int → σ × Int
  fits_close_file : Fptr → σ → Int → σ × Int
  fits_report_error : Int → σ → σ

/-- The convention of cfitsio ("inherited status"): a routine entered with a
non-zero status never hands back a zero status. -/
structure Extern.InheritsStatus {σ : Type} (lib : Extern σ) : Prop where
  open_file : ∀ fn m w s, s ≠ 0 → (lib.fits_open_file fn m w s).2.2 ≠ 0
  create_file : ∀ fn w s, s ≠ 0 → (lib.fits_create_file fn w s).2.2 ≠ 0
  create_img : ∀ f b n ax w s, s ≠ 0 → (lib.fits_create_img f b n ax w s).2 ≠ 0
  write_img : ∀ f d fp n a h w s, s ≠ 0 → (lib.fits_write_img f d fp n a h w s).2 ≠ 0
  close_file : ∀ f w s, s ≠ 0 → (lib.fits_close_file f w s).2 ≠ 0

/-! ## FITS export -/

/-- What a run of `export_image_to_fits_c` leaves: the outside world, the
external calls made, in order, each with the value of `status` after it, and
the value returned. -/
structure ExportResult (σ : Type) where
  world : σ
  trace : List (Call × Int)
  status : Int

/-- The function `export_image_to_fits_c` (lines 85-113). -/
def export_image_to_fits_c {σ : Type} (lib : Extern σ) (w : σ) (h : Heap)
    (im : Image) (filename : String) : ExportResult σ :=
  let status : Int := 0
  let fpixel : Int := 1
  let naxis : Int := 4
  let naxes0 := im.data_shape 3
  let naxes1 := im.data_shape 2
  let naxes2 := im.data_shape 1
  let naxes3 := im.data_shape 0
  let naxes := [naxes0, naxes1, naxes2, naxes3]
  let r1 := lib.fits_file_exists filename w status
  let exists_flag := r1.2.1
  let c2 := if exists_flag ≠ 0 then Call.fits_open_file filename .READWRITE
            else Call.fits_create_file filename
  let r2 := if exists_flag ≠ 0 then lib.fits_open_file filename .READWRITE r1.1 r1.2.2
            else lib.fits_create_file filename r1.1 r1.2.2
  let fptr := r2.2.1
  let r3 := lib.fits_create_img fptr .DOUBLE_IMG naxis naxes r2.1 r2.2.2
  let nelements := int64 (int64 (int64 (naxes0 * naxes1) * naxes2) * naxes3)
  let r4 := lib.fits_write_img fptr .TDOUBLE fpixel nelements im.data h r3.1 r3.2
  let r5 := lib.fits_close_file fptr r4.1 r4.2
  let w6 := lib.fits_report_error r5.2 r5.1
  { world := w6,
    trace := [(.fits_file_exists filename, r1.2.2), (c2, r2.2.2),
              (.fits_create_img fptr .DOUBLE_IMG naxis naxes, r3.2),
              (.fits_write_img fptr .TDOUBLE fpixel nelements im.data, r4.2),
              (.fits_close_file fptr, r5.2), (.fits_report_error r5.2, r5.2)],
    status := r5.2 }

/-! ## Visibility records -/

/-- Modelled from the spec: the `ARLVis` record of `arlwrap.h` (the header is
not part of the sources): the count `nvis`, the number of polarisations `npol`
and the pointer `data` to the visibility bytes. -/
structure ARLVis where
  nvis : Int
  npol : Int
  data : Ptr

/-- The value of `int ARLVisDataSize = 72 + (32 * vt->npol * vt->nvis)`
(line 69). -/
def ARLVisDataSize (vt : ARLVis) : Int :=
  int32 (72 + int32 (int32 (32 * vt.npol) * vt.nvis))

/-- The pointers `main` holds after its set-up (lines 146-180). -/
structure Setup where
  shape : Ptr
  times : Ptr
  freq : Ptr
  channel_bandwidth : Ptr
  vt : Ptr
  vt_rec : ARLVis
  vtmp : Ptr
  vtmp_rec : ARLVis
  lowconfig : Ptr

/-- The argument of the two `malloc` calls of lines 174-175,
`72+4*(32*vt->npol*vt->nvis) * sizeof(char)`, as a `size_t`. -/
def main_vis_malloc_size (vt : ARLVis) : Nat :=
  to_size_t (72 + 4 * (32 * vt.npol * vt.nvis) * 1)

/-- The set-up of `main` (lines 146-180): the allocations, in order, the stores
through the fresh pointers (a store through `NULL` ends the run), and the test
of the two data pointers.  `sizeof_ARLVis` and `sizeof_ARLConf` are the sizes
of the two records; `sizeof(int)` is 4 and `sizeof(double)` is 8.  The values
stored in `freq[0]` and `channel_bandwidth[0]` and the call `Py_Initialize()`
are left out; fields of `vtmp` not assigned are shown as 0. -/
def main_setup (sizeof_ARLVis sizeof_ARLConf : Nat) (h : Heap) : Outcome (Heap × Setup) :=
  let (shape, h1) := h.malloc (4 * 4)
  let (times, h2) := h1.calloc 1 8
  let (freq, h3) := h2.malloc (1 * 8)
  let (channel_bandwidth, h4) := h3.malloc (1 * 8)
  if freq = NULL then .null_deref
  else if channel_bandwidth = NULL then .null_deref
  else
    let (vt, h5) := h4.malloc sizeof_ARLVis
    let (vtmp, h6) := h5.malloc sizeof_ARLVis
    let (lowconfig, h7) := h6.malloc sizeof_ARLConf
    if vt = NULL then .null_deref
    else
      let vt_rec0 : ARLVis := { nvis := 13695, npol := 1, data := NULL }
      let (vt_data, h8) := h7.malloc (main_vis_malloc_size vt_rec0)
      let vt_rec : ARLVis := { vt_rec0 with data := vt_data }
      let (vtmp_data, h9) := h8.malloc (main_vis_malloc_size vt_rec)
      if vtmp = NULL then .null_deref
      else
        let vtmp_rec : ARLVis := { nvis := 0, npol := 0, data := vtmp_data }
        if vt_rec.data = NULL ∨ vtmp_rec.data = NULL then .exit 1 ["Malloc error\n"]
        else
          .returned (h9,
            { shape := shape, times := times, freq := freq,
              channel_bandwidth := channel_bandwidth, vt := vt, vt_rec := vt_rec,
              vtmp := vtmp, vtmp_rec := vtmp_rec, lowconfig := lowconfig })

/-- The heap of a program that has allocated nothing, with an allocator that
grants every request. -/
def Heap.init : Heap := { live := [], next := 0, grants := [], frees := [], fault := false }

/-- The allocator grants the next `n` requests. -/
def Heap.granted (h : Heap) (n : Nat) : Bool := (h.grants.take n).all id

/-- The value a run returned, if it returned. -/
def Outcome.value {α : Type} : Outcome α → Option α
  | .returned a => some a
  | _ => none

/-- The exit code and the diagnostic of a run that ended in `exit`. -/
def Outcome.exited {α : Type} : Outcome α → Option (Int × List String)
  | .exit code err => some (code, err)
  | _ => none

/-- A stand-in for the external routines, driven by a script of numbers: every
call takes the next number of the script (0 past its end).  `mkdir` returns
it, `fits_file_exists` gives it as the `exists` flag, and a routine with a
status gives it as the new status, unless it is entered with a non-zero
status, which it leaves as it is.  Every handle is 1. -/
def scripted : Extern (List Int) where
  mkdir := fun _ _ w => (w.tail, w.headD 0)
  fits_file_exists := fun _ w s => (w.tail, w.headD 0, s)
  fits_open_file := fun _ _ w s => (w.tail, 1, if s ≠ 0 then s else w.headD 0)
  fits_create_file := fun _ w s => (w.tail, 1, if s ≠ 0 then s else w.headD 0)
  fits_create_img := fun _ _ _ _ w s => (w.tail, if s ≠ 0 then s else w.headD 0)
  fits_write_img := fun _ _ _ _ _ _ w s => (w.tail, if s ≠ 0 then s else w.headD 0)
  fits_close_file := fun _ w s => (w.tail, if s ≠ 0 then s else w.headD 0)
  fits_report_error := fun _ w => w

/-- The element counts of the `fits_write_img` calls of a trace. -/
def written_counts (t : List (Call × Int)) : List Int :=
  t.filterMap fun c =>
    match c.1 with
    | .fits_write_img _ _ _ n _ => some n
    | _ => none

/-! ## Reading a trace -/

/-- The name of the routine called. -/
def Call.name : Call → String
  | .mkdir _ _ => "mkdir"
  | .fits_file_exists _ => "fits_file_exists"
  | .fits_open_file _ _ => "fits_open_file"
  | .fits_create_file _ => "fits_create_file"
  | .fits_create_img _ _ _ _ => "fits_create_img"
  | .fits_write_img _ _ _ _ _ => "fits_write_img"
  | .fits_close_file _ => "fits_close_file"
  | .fits_report_error _ => "fits_report_error"

/-- The images declared by the `fits_create_img` calls of a trace: image type,
number of axes, axis sizes. -/
def declared_images (t : List (Call × Int)) : List (ImgType × Int × List Int) :=
  t.filterMap fun c =>
    match c.1 with
    | .fits_create_img _ bitpix naxis naxes => some (bitpix, naxis, naxes)
    | _ => none

/-- The arrays handed to the `fits_write_img` calls of a trace: data type,
first pixel, element count, pointer. -/
def written_arrays (t : List (Call × Int)) : List (DataType × Int × Int × Ptr) :=
  t.filterMap fun c =>
    match c.1 with
    | .fits_write_img _ datatype firstelem nelements array =>
      some (datatype, firstelem, nelements, array)
    | _ => none

/-- The files opened by the `fits_open_file` calls of a trace, with the mode. -/
def opened_files (t : List (Call × Int)) : List (String × IOMode) :=
  t.filterMap fun c =>
    match c.1 with
    | .fits_open_file filename iomode => some (filename, iomode)
    | _ => none

/-- The files created by the `fits_create_file` calls of a trace. -/
def created_files (t : List (Call × Int)) : List String :=
  t.filterMap fun c =>
    match c.1 with
    | .fits_create_file filename => some filename
    | _ => none

/-- An image of shape [1, 1, 2, 2] whose data buffer is at address 2. -/
def image_1122 : Image :=
  { addr := 1, size := 4, data_shape := ![1, 1, 2, 2], data := 2, wcs := 3,
    polarisation_frame := 4 }

/-- A heap in which the block at address 2 holds the doubles 1.0, 2.0, 3.0,
4.0 (as IEEE 754 bit patterns). -/
def heap_1234 : Heap :=
  { live := [⟨4, 114, zeroed 114⟩, ⟨3, 2996, zeroed 2996⟩,
             ⟨2, 32, some [0x3FF0000000000000, 0x4000000000000000,
                           0x4008000000000000, 0x4010000000000000]⟩,
             ⟨1, 48, none⟩],
    next := 4, grants := [], frees := [], fault := false }

/-! ## The allocations of the seven images -/

theorem int64_eq_of_range (x : Int) (h1 : -9223372036854775808 ≤ x)
    (h2 : x < 9223372036854775808) : int64 x = x := by
  unfold int64; omega

theorem int64_mul_int64 (a b : Int) : int64 (int64 a * b) = int64 (a * b) := by
  unfold int64
  have h : (a + 9223372036854775808) % 18446744073709551616 - 9223372036854775808
      = a - 18446744073709551616 * ((a + 9223372036854775808) / 18446744073709551616) := by
    omega
  rw [h]
  have : (a - 18446744073709551616 * ((a + 9223372036854775808) / 18446744073709551616)) * b
        + 9223372036854775808
      = (a * b + 9223372036854775808)
        + 18446744073709551616
          * (-(((a + 9223372036854775808) / 18446744073709551616) * b)) := by
    ring
  rw [this, Int.add_mul_emod_self_left]

theorem min_value_nonpos (t : IntType) : t.min_value ≤ 0 := by
  unfold IntType.min_value
  split_ifs
  · have : (0 : Int) < 2 ^ (t.bits - 1) := by positivity
    omega
  · exact le_refl 0

theorem wrap_eq_of_range (t : IntType) (x : Int) (h1 : t.min_value ≤ x)
    (h2 : x ≤ t.max_value) : t.wrap x = x := by
  unfold IntType.max_value at h2
  unfold IntType.wrap
  rw [Int.emod_eq_of_lt (by omega) (by omega)]
  omega

theorem wrap_mul_wrap (t : IntType) (a b : Int) : t.wrap (t.wrap a * b) = t.wrap (a * b) := by
  unfold IntType.wrap
  have h : (a - t.min_value) % 2 ^ t.bits + t.min_value
      = a - 2 ^ t.bits * ((a - t.min_value) / 2 ^ t.bits) := by
    have := Int.emod_add_ediv (a - t.min_value) (2 ^ t.bits)
    omega
  rw [h]
  have : (a - 2 ^ t.bits * ((a - t.min_value) / 2 ^ t.bits)) * b - t.min_value
      = (a * b - t.min_value) + 2 ^ t.bits * (-(((a - t.min_value) / 2 ^ t.bits) * b)) := by
    ring
  rw [this, Int.add_mul_emod_self_left]

/-! ## The loop of `allocate_image`: facts -/

theorem loop_size (t : IntType) (shape : Shape) (image0 : Image) :
    (List.foldl (allocate_image_step t shape) image0 [0, 1, 2, 3]).size
      = t.wrap (image0.size * shape 0 * shape 1 * shape 2 * shape 3) := by
  simp only [List.foldl, allocate_image_step, wrap_mul_wrap]

theorem loop_shape (t : IntType) (shape : Shape) (image0 : Image) :
    (List.foldl (allocate_image_step t shape) image0 [0, 1, 2, 3]).data_shape = shape := by
  funext i
  fin_cases i <;> simp [List.foldl, allocate_image_step, Function.update]

theorem loop_addr (t : IntType) (shape : Shape) (image0 : Image) :
    (List.foldl (allocate_image_step t shape) image0 [0, 1, 2, 3]).addr = image0.addr := rfl

theorem shape_product_nonneg (shape : Shape) (hpos : ∀ i, 0 ≤ shape i) :
    0 ≤ shape 0 * shape 1 * shape 2 * shape 3 :=
  mul_nonneg (mul_nonneg (mul_nonneg (hpos 0) (hpos 1)) (hpos 2)) (hpos 3)

/-! ## The heap: facts -/

theorem alloc_cases (h : Heap) (n : Nat) (c : Option (List Nat)) :
    (h.alloc n c = (NULL, { h with grants := h.grants.tail }) ∧ h.grants.head? = some false) ∨
    (h.alloc n c = (h.next + 1,
        { h with
          live := ⟨h.next + 1, n, c⟩ :: h.live,
          next := h.next + 1,
          grants := h.grants.tail }) ∧ h.grants.head? ≠ some false) := by
  obtain ⟨live, next, grants, frees, fault⟩ := h
  rcases grants with _ | ⟨g, gs⟩
  · right; simp [Heap.alloc]
  · cases g <;> simp [Heap.alloc]

theorem calloc_cases (h : Heap) (m s : Nat) :
    (h.calloc m s = (NULL, { h with grants := h.grants.tail }) ∧
      (SIZE_LIMIT ≤ m * s ∨ h.grants.head? = some false)) ∨
    (h.calloc m s = (h.next + 1,
        { h with
          live := ⟨h.next + 1, m * s, zeroed m⟩ :: h.live,
          next := h.next + 1,
          grants := h.grants.tail }) ∧
      m * s < SIZE_LIMIT ∧ h.grants.head? ≠ some false) := by
  unfold Heap.calloc
  by_cases hov : m * s ≥ SIZE_LIMIT
  · left; simp [hov]
  · rw [if_neg hov]
    rcases alloc_cases h (m * s) (zeroed m) with ⟨h1, h2⟩ | ⟨h1, h2⟩
    · left; exact ⟨h1, Or.inr h2⟩
    · right; exact ⟨h1, by omega, h2⟩

theorem calloc_refused (h : Heap) (m s : Nat) (hr : h.grants.head? = some false) :
    h.calloc m s = (NULL, { h with grants := h.grants.tail }) := by
  rcases calloc_cases h m s with ⟨e, _⟩ | ⟨_, _, hne⟩
  · exact e
  · exact absurd hr hne

theorem free_frees (h : Heap) (p : Ptr) : (h.free p).frees = h.frees ++ [p] := by
  unfold Heap.free; split_ifs <;> rfl

theorem free_live (h : Heap) (p : Ptr) :
    (h.free p).live = if p = NULL then h.live else h.live.eraseP (fun b => b.addr = p) := by
  unfold Heap.free
  split_ifs with h1 h2
  · rfl
  · rfl
  · simp only
    symm
    apply List.eraseP_of_forall_not
    intro b hb
    simp only [List.any_eq_true, not_exists, not_and] at h2
    simpa using h2 b hb

theorem free_fault (h : Heap) (p : Ptr) :
    (h.free p).fault = (h.fault || (p != NULL && !h.live.any (fun b => b.addr = p))) := by
  unfold Heap.free
  split_ifs with h1 h2
  · simp [h1]
  · simp [h2]
  · simp [h1, h2]

theorem granted_head (h : Heap) (n : Nat) (hg : h.granted (n + 1) = true) :
    h.grants.head? ≠ some false := by
  obtain ⟨live, next, grants, frees, fault⟩ := h
  rcases grants with _ | ⟨g, gs⟩
  · simp
  · cases g <;> simp_all [Heap.granted]

theorem granted_tail (h : Heap) (n : Nat) (hg : h.granted (n + 1) = true) :
    (h.grants.tail.take n).all id = true := by
  obtain ⟨live, next, grants, frees, fault⟩ := h
  rcases grants with _ | ⟨g, gs⟩
  · simp
  · simp_all [Heap.granted]

theorem find_skip (p : Ptr) (b : Block) (l : List Block) (hne : @Ne Nat b.addr p) :
    List.find? (fun b => decide (b.addr = p)) (b :: l)
      = List.find? (fun b => decide (b.addr = p)) l := by
  simp [List.find?, hne]

theorem find_hit (p : Ptr) (b : Block) (l : List Block) (he : b.addr = p) :
    List.find? (fun b => decide (b.addr = p)) (b :: l) = some b := by
  simp [List.find?, he]

/-! ## `allocate_image`: facts -/

/-- When the allocator grants the record, `allocate_image` returns; the size
is the wrapped product, the shape is copied, and the data pointer is either
`NULL` (the request was refused) or a live zeroed block. -/
theorem allocate_image_returns (t : IntType) (sizeof_Image : Nat) (h : Heap)
    (shape : Shape) (hg : h.granted 1 = true) :
    ∃ h1 img, allocate_image t sizeof_Image h shape = .returned (h1, img) ∧
      img.size = t.wrap (shape 0 * shape 1 * shape 2 * shape 3) ∧
      img.data_shape = shape ∧
      ((img.data = NULL ∧
          (SIZE_LIMIT ≤ to_size_t img.size * 8 ∨ h.grants.tail.head? = some false)) ∨
        (img.data ≠ NULL ∧
          h1.block img.data
            = some ⟨img.data, to_size_t img.size * 8, zeroed (to_size_t img.size)⟩)) := by
  have hhead := granted_head h 0 hg
  simp only [allocate_image, Heap.malloc]
  rcases alloc_cases h sizeof_Image none with ⟨_, h2⟩ | ⟨e1, _⟩
  · exact absurd h2 hhead
  rw [e1]
  simp only [NULL, Nat.add_one_ne_zero, if_false]
  generalize himg : List.foldl (allocate_image_step t shape) _ _ = img1
  have hsize : img1.size = t.wrap (shape 0 * shape 1 * shape 2 * shape 3) := by
    rw [← himg, loop_size, one_mul]
  have hshape : img1.data_shape = shape := by rw [← himg, loop_shape]
  rcases calloc_cases
      { h with
        live := ⟨h.next + 1, sizeof_Image, none⟩ :: h.live,
        next := h.next + 1,
        grants := h.grants.tail } (to_size_t img1.size) 8 with ⟨e2, hbad⟩ | ⟨e2, _⟩
  · rw [e2]
    simp only []
    rcases calloc_cases _ 2996 1 with ⟨e3, _⟩ | ⟨e3, _⟩ <;> rw [e3] <;> simp only [] <;>
    rcases calloc_cases _ 114 1 with ⟨e4, _⟩ | ⟨e4, _⟩ <;> rw [e4] <;> simp only [] <;>
    exact ⟨_, _, rfl, hsize, hshape, Or.inl ⟨rfl, hbad⟩⟩
  · rw [e2]
    simp only []
    rcases calloc_cases _ 2996 1 with ⟨e3, _⟩ | ⟨e3, _⟩ <;> rw [e3] <;> simp only [] <;>
    rcases calloc_cases _ 114 1 with ⟨e4, _⟩ | ⟨e4, _⟩ <;> rw [e4] <;> simp only [] <;>
    refine ⟨_, _, rfl, hsize, hshape, Or.inr ⟨by simp [NULL], ?_⟩⟩ <;>
    (simp only [Heap.block]
     repeat (rw [find_skip]; swap; · (dsimp only; omega))
     rw [find_hit]
     · rfl)

/-! ## C1 : what `allocate_image` returns -/

set_option maxRecDepth 8192 in
/-- C1, as stated, fails: for the non-negative shape
[65536, 65536, 65536, 65536], whose product is 2^64, on a heap that grants
every request, `allocate_image` returns an image whose `size` is 0, whichever
of the types `int`, `unsigned int`, `long` and `size_t` the field `size`
has.  And for the non-negative shape [65536, 65536, 65536, 8192], whose
product 2^61 fits a `long` and a `size_t`, the `size` of such a type is the
product, but the `calloc` request of 2^61 elements of 8 bytes overflows:
`data` is `NULL` and the image has no data buffer. -/
theorem allocate_image_size_wraps :
    (∀ i, 0 ≤ (![65536, 65536, 65536, 65536] : Shape) i) ∧
    [c_int, c_unsigned_int, c_long, c_size_t].map
        (fun t =>
          (allocate_image t 48 Heap.init ![65536, 65536, 65536, 65536]).value.map
            (fun r => r.2.size))
      = [some 0, some 0, some 0, some 0] ∧
    (![65536, 65536, 65536, 65536] : Shape) 0 * (![65536, 65536, 65536, 65536] : Shape) 1
        * (![65536, 65536, 65536, 65536] : Shape) 2
        * (![65536, 65536, 65536, 65536] : Shape) 3
      = 18446744073709551616 ∧
    (∀ i, 0 ≤ (![65536, 65536, 65536, 8192] : Shape) i) ∧
    [c_long, c_size_t].map
        (fun t =>
          (allocate_image t 48 Heap.init ![65536, 65536, 65536, 8192]).value.map
            (fun r => (r.2.size, r.2.data)))
      = [some (2305843009213693952, NULL), some (2305843009213693952, NULL)] := by
  refine ⟨by decide, by decide, by decide, by decide, by decide⟩

/-- C1, amended: whatever integer type the field `size` has, for a shape with
non-negative components whose product is at most the greatest value of that
type and, times the 8 bytes of a `double`, fits a `size_t`, on a heap that
grants the next two requests (the record and the data buffer),
`allocate_image` returns an image whose `size` is the product of the shape,
whose `data_shape` is the shape, and whose data buffer is a live block of
`size` elements of 8 bytes, all of them zero. -/
theorem allocate_image_spec (t : IntType) (sizeof_Image : Nat) (h : Heap) (shape : Shape)
    (hpos : ∀ i, 0 ≤ shape i)
    (hfit : shape 0 * shape 1 * shape 2 * shape 3 ≤ t.max_value)
    (hbytes : shape 0 * shape 1 * shape 2 * shape 3 * 8 < 18446744073709551616)
    (hg : h.granted 2 = true) :
    ∃ h1 img, allocate_image t sizeof_Image h shape = .returned (h1, img) ∧
      img.size = shape 0 * shape 1 * shape 2 * shape 3 ∧
      img.data_shape = shape ∧
      img.data ≠ NULL ∧
      h1.block img.data
        = some ⟨img.data, img.size.toNat * 8, some (List.replicate img.size.toNat 0)⟩ := by
  have hnn := shape_product_nonneg shape hpos
  have hmin := min_value_nonpos t
  have hg1 : h.granted 1 = true := by
    obtain ⟨live, next, grants, frees, fault⟩ := h
    rcases grants with _ | ⟨g, _ | ⟨g', gs⟩⟩ <;> simp_all [Heap.granted]
  obtain ⟨h1, img, hret, hsize, hshape, hdata⟩ :=
    allocate_image_returns t sizeof_Image h shape hg1
  rw [wrap_eq_of_range t _ (by omega) hfit] at hsize
  have hn : to_size_t img.size = img.size.toNat := by
    unfold to_size_t; rw [hsize]; omega
  refine ⟨h1, img, hret, hsize, hshape, ?_⟩
  rcases hdata with ⟨_, hbad⟩ | ⟨hne, hblk⟩
  · exfalso
    rcases hbad with hbad | hbad
    · rw [hn, hsize] at hbad; unfold SIZE_LIMIT at hbad; omega
    · obtain ⟨live, next, grants, frees, fault⟩ := h
      rcases grants with _ | ⟨g, _ | ⟨g', gs⟩⟩ <;> simp_all [Heap.granted]
  · rw [hn] at hblk
    exact ⟨hne, hblk⟩

/-- C1, amended, at the shape [1, 1, 2, 2] on the empty heap, with a `size` of
type `size_t`. -/
theorem allocate_image_spec_witness :
    ∃ h1 img, allocate_image c_size_t 48 Heap.init ![1, 1, 2, 2] = .returned (h1, img) ∧
      img.size = (![1, 1, 2, 2] : Shape) 0 * (![1, 1, 2, 2] : Shape) 1
        * (![1, 1, 2, 2] : Shape) 2 * (![1, 1, 2, 2] : Shape) 3 ∧
      img.data_shape = ![1, 1, 2, 2] ∧
      img.data ≠ NULL ∧
      h1.block img.data
        = some ⟨img.data, img.size.toNat * 8, some (List.replicate img.size.toNat 0)⟩ :=
  allocate_image_spec c_size_t 48 Heap.init ![1, 1, 2, 2] (by decide) (by decide) (by decide)
    (by decide)

/-! ## C5 : `destroy_image` after `allocate_image` -/

/-- C5: for every shape (and whatever integer type the field `size` has), on
every heap whose allocator grants the record, `allocate_image` returns an
image, and `destroy_image` on it calls `free` on the data buffer, the wcs
buffer, the polarisation_frame buffer and the record, in that order and nothing
else, returns `NULL`, raises no invalid or double free, and leaves the list of
live blocks as it was before `allocate_image`. -/
theorem destroy_allocate_restores (t : IntType) (sizeof_Image : Nat) (h : Heap)
    (shape : Shape) (hg : h.granted 1 = true) :
    ∃ h1 img, allocate_image t sizeof_Image h shape = .returned (h1, img) ∧
      (destroy_image h1 img).2 = NULL ∧
      (destroy_image h1 img).1.frees
        = h.frees ++ [img.data, img.wcs, img.polarisation_frame, img.addr] ∧
      (destroy_image h1 img).1.live = h.live ∧
      (destroy_image h1 img).1.fault = h.fault := by
  have hhead := granted_head h 0 hg
  simp only [allocate_image, Heap.malloc]
  rcases alloc_cases h sizeof_Image none with ⟨_, h2⟩ | ⟨e1, _⟩
  · exact absurd h2 hhead
  rw [e1]
  simp only [NULL, Nat.add_one_ne_zero, if_false]
  generalize himg : List.foldl (allocate_image_step t shape) _ _ = img1
  have haddr : img1.addr = h.next + 1 := by rw [← himg]; rfl
  generalize to_size_t img1.size = n
  rcases calloc_cases _ n 8 with ⟨e2, _⟩ | ⟨e2, _⟩ <;> rw [e2] <;> simp only [] <;>
  rcases calloc_cases _ 2996 1 with ⟨e3, _⟩ | ⟨e3, _⟩ <;> rw [e3] <;> simp only [] <;>
  rcases calloc_cases _ 114 1 with ⟨e4, _⟩ | ⟨e4, _⟩ <;> rw [e4] <;> simp only [] <;>
  refine ⟨_, _, rfl, rfl, ?_, ?_, ?_⟩ <;>
  simp +arith [destroy_image, free_frees, free_live, free_fault, NULL, List.eraseP, haddr]

/-- C5 at the shape [1, 1, 2, 2] on the empty heap, with a `size` of type
`size_t`. -/
theorem destroy_allocate_restores_witness :
    ∃ h1 img, allocate_image c_size_t 48 Heap.init ![1, 1, 2, 2] = .returned (h1, img) ∧
      (destroy_image h1 img).2 = NULL ∧
      (destroy_image h1 img).1.frees
        = Heap.init.frees ++ [img.data, img.wcs, img.polarisation_frame, img.addr] ∧
      (destroy_image h1 img).1.live = Heap.init.live ∧
      (destroy_image h1 img).1.fault = Heap.init.fault :=
  destroy_allocate_restores c_size_t 48 Heap.init ![1, 1, 2, 2] (by decide)

/-! ## C6 : a failed allocation in `allocate_image` -/

/-- C6, the code at the failing inputs, whatever integer type the field
`size` has.  With the data request refused, `allocate_image` returns normally
an image whose `data` is `NULL`; with the record refused the run goes through
a null pointer.  No run of `allocate_image` ends in `exit`.  The set-up of
`main`, in contrast, tests its data pointers and ends in `exit(1)` with a
diagnostic. -/
theorem allocate_image_ignores_failure :
    (∀ t : IntType,
      (allocate_image t 48 { Heap.init with grants := [true, false] } ![2, 2, 1, 1]).value.map
        (fun r => (r.2.data, r.2.wcs, r.2.polarisation_frame)) = some (NULL, 2, 3)) ∧
    (∀ t : IntType,
      (allocate_image t 48 { Heap.init with grants := [false] } ![2, 2, 1, 1]).value.isNone
        = true) ∧
    (∀ (t : IntType) (sz : Nat) (h : Heap) (shape : Shape) (code : Int) (err : List String),
      allocate_image t sz h shape ≠ .exit code err) ∧
    (main_setup 24 64
        { Heap.init with grants := [true, true, true, true, true, true, true, false] }).exited
      = some (1, ["Malloc error\n"]) := by
  refine ⟨?_, ?_, ?_, by decide⟩
  · intro t
    simp only [allocate_image, Heap.malloc]
    rw [show Heap.alloc { Heap.init with grants := [true, false] } 48 none
        = (1, ⟨[⟨1, 48, none⟩], 1, [false], [], false⟩) from rfl]
    simp only [NULL, one_ne_zero, if_false]
    have e2 : ∀ n : Nat, Heap.calloc ⟨[⟨1, 48, none⟩], 1, [false], [], false⟩ n 8
        = (NULL, ⟨[⟨1, 48, none⟩], 1, [], [], false⟩) :=
      fun n => calloc_refused _ n 8 rfl
    rw [e2]
    rfl
  · intro t
    rfl
  · intro t sz h shape code err
    simp only [allocate_image]
    split_ifs <;> simp

/-! ## C2 : what is exported -/

/-- C2: for every image, file name, library and outside world,
`export_image_to_fits_c` declares exactly one image, of type `DOUBLE_IMG` with
4 axes whose sizes are `data_shape[3], data_shape[2], data_shape[1],
data_shape[0]`, and makes exactly one write, of type `TDOUBLE`, from first
pixel 1, of the pointer `im->data` itself with the element count
`naxes[0]*naxes[1]*naxes[2]*naxes[3]` (so the elements are read in place, in
their order).  For shape [1, 1, 2, 2] and data 1.0, 2.0, 3.0, 4.0 the axes are
[2, 2, 1, 1] and the four elements handed over are 1.0, 2.0, 3.0, 4.0, in that
order. -/
theorem export_declares_and_writes {σ : Type} (lib : Extern σ) (w : σ) (h : Heap)
    (im : Image) (filename : String) :
    declared_images (export_image_to_fits_c lib w h im filename).trace
      = [(.DOUBLE_IMG, 4,
          [im.data_shape 3, im.data_shape 2, im.data_shape 1, im.data_shape 0])] ∧
    written_arrays (export_image_to_fits_c lib w h im filename).trace
      = [(.TDOUBLE, 1,
          int64 (int64 (int64 (im.data_shape 3 * im.data_shape 2) * im.data_shape 1)
            * im.data_shape 0),
          im.data)] ∧
    declared_images (export_image_to_fits_c lib w heap_1234 image_1122 filename).trace
      = [(.DOUBLE_IMG, 4, [2, 2, 1, 1])] ∧
    written_arrays (export_image_to_fits_c lib w heap_1234 image_1122 filename).trace
      = [(.TDOUBLE, 1, 4, image_1122.data)] ∧
    heap_1234.elements image_1122.data 4
      = [0x3FF0000000000000, 0x4000000000000000, 0x4008000000000000, 0x4010000000000000] := by
  refine ⟨?_, ?_, ?_, ?_, by decide⟩
  · simp only [export_image_to_fits_c, declared_images]
    split_ifs <;> rfl
  · simp only [export_image_to_fits_c, written_arrays]
    split_ifs <;> rfl
  · simp only [export_image_to_fits_c, declared_images]
    split_ifs <;> rfl
  · simp only [export_image_to_fits_c, written_arrays]
    split_ifs <;> rfl

/-! ## C4 : open or create -/

/-- C4: for every image, file name, library and outside world, the calls made
by `export_image_to_fits_c` are, in order: the existence test; then
`fits_open_file` in mode `READWRITE` when the flag `exists` is non-zero, and
`fits_create_file` when it is zero; then `fits_create_img`, `fits_write_img`
and `fits_close_file` on the handle that call gave; then the error report.  So
one file is acquired, by open (and no create) when the file exists and by
create (and no open) when it does not, and one image is created in it. -/
theorem export_opens_or_creates {σ : Type} (lib : Extern σ) (w : σ) (h : Heap)
    (im : Image) (filename : String) :
    ∃ fptr : Fptr,
      fptr = (if (lib.fits_file_exists filename w 0).2.1 ≠ 0 then
          (lib.fits_open_file filename .READWRITE (lib.fits_file_exists filename w 0).1
            (lib.fits_file_exists filename w 0).2.2).2.1
        else
          (lib.fits_create_file filename (lib.fits_file_exists filename w 0).1
            (lib.fits_file_exists filename w 0).2.2).2.1) ∧
      (export_image_to_fits_c lib w h im filename).trace.map Prod.fst
        = [.fits_file_exists filename,
           if (lib.fits_file_exists filename w 0).2.1 ≠ 0 then
             .fits_open_file filename .READWRITE
           else .fits_create_file filename,
           .fits_create_img fptr .DOUBLE_IMG 4
             [im.data_shape 3, im.data_shape 2, im.data_shape 1, im.data_shape 0],
           .fits_write_img fptr .TDOUBLE 1
             (int64 (int64 (int64 (im.data_shape 3 * im.data_shape 2) * im.data_shape 1)
               * im.data_shape 0))
             im.data,
           .fits_close_file fptr,
           .fits_report_error (export_image_to_fits_c lib w h im filename).status] ∧
      opened_files (export_image_to_fits_c lib w h im filename).trace
        = (if (lib.fits_file_exists filename w 0).2.1 ≠ 0 then [(filename, .READWRITE)]
           else []) ∧
      created_files (export_image_to_fits_c lib w h im filename).trace
        = (if (lib.fits_file_exists filename w 0).2.1 ≠ 0 then [] else [filename]) := by
  refine ⟨_, rfl, ?_, ?_, ?_⟩
  · simp only [export_image_to_fits_c, List.map]
    split_ifs <;> rfl
  · simp only [export_image_to_fits_c, opened_files]
    split_ifs <;> rfl
  · simp only [export_image_to_fits_c, created_files]
    split_ifs <;> rfl

/-! ## C3 : the status returned -/

theorem scripted_inherits : scripted.InheritsStatus where
  open_file := by intro fn m w s hs; simp [scripted, hs]
  create_file := by intro fn w s hs; simp [scripted, hs]
  create_img := by intro f b n ax w s hs; simp [scripted, hs]
  write_img := by intro f d fp n a h w s hs; simp [scripted, hs]
  close_file := by intro f w s hs; simp [scripted, hs]

/-- C3: for every library that keeps to the inherited-status convention, and
every image, file name and outside world, `export_image_to_fits_c` returns 0
exactly when the status after each of the five steps (existence test, open or
create, create image, write image, close: the first five entries of the trace)
is 0; and whatever the statuses are, the same six routines are called in the
same order, down to the close and the error report. -/
theorem export_status_zero_iff {σ : Type} (lib : Extern σ) (hlib : lib.InheritsStatus)
    (w : σ) (h : Heap) (im : Image) (filename : String) :
    ((export_image_to_fits_c lib w h im filename).status = 0 ↔
      ∀ e ∈ (export_image_to_fits_c lib w h im filename).trace.take 5, e.2 = 0) ∧
    (export_image_to_fits_c lib w h im filename).trace.map (fun e => e.1.name)
      = ["fits_file_exists",
         if (lib.fits_file_exists filename w 0).2.1 ≠ 0 then "fits_open_file"
         else "fits_create_file",
         "fits_create_img", "fits_write_img", "fits_close_file", "fits_report_error"] := by
  constructor
  · simp only [export_image_to_fits_c, List.take, List.mem_cons, List.mem_nil_iff, or_false,
      forall_eq_or_imp, forall_eq]
    constructor
    · intro h5
      have h4 := fun hne => hlib.close_file _ _ _ hne h5
      have h4 := not_not.mp h4
      have h3 := not_not.mp fun hne => hlib.write_img _ _ _ _ _ _ _ _ hne h4
      have h2 := not_not.mp fun hne => hlib.create_img _ _ _ _ _ _ hne h3
      have h1 : (lib.fits_file_exists filename w 0).2.2 = 0 := by
        by_contra hne
        split_ifs at h2 with hex
        · exact hlib.open_file _ _ _ _ hne h2
        · exact hlib.create_file _ _ _ hne h2
      exact ⟨h1, h2, h3, h4, h5⟩
    · intro hall
      exact hall.2.2.2.2
  · simp only [export_image_to_fits_c, List.map]
    split_ifs <;> rfl

/-- C3 with the scripted library: the third step fails with code 104. -/
theorem export_status_zero_iff_witness :
    ((export_image_to_fits_c scripted [0, 0, 104, 0, 0] heap_1234 image_1122
        "results/dirty.fits").status = 0 ↔
      ∀ e ∈ (export_image_to_fits_c scripted [0, 0, 104, 0, 0] heap_1234 image_1122
        "results/dirty.fits").trace.take 5, e.2 = 0) ∧
    (export_image_to_fits_c scripted [0, 0, 104, 0, 0] heap_1234 image_1122
        "results/dirty.fits").trace.map (fun e => e.1.name)
      = ["fits_file_exists",
         if (scripted.fits_file_exists "results/dirty.fits" [0, 0, 104, 0, 0] 0).2.1 ≠ 0 then
           "fits_open_file"
         else "fits_create_file",
         "fits_create_img", "fits_write_img", "fits_close_file", "fits_report_error"] :=
  export_status_zero_iff scripted scripted_inherits [0, 0, 104, 0, 0] heap_1234 image_1122
    "results/dirty.fits"

/-! ## Reading the trace of one export -/

theorem export_written_counts {σ : Type} (lib : Extern σ) (w : σ) (h : Heap)
    (im : Image) (filename : String) :
    written_counts (export_image_to_fits_c lib w h im filename).trace
      = [int64 (int64 (int64 (im.data_shape 3 * im.data_shape 2) * im.data_shape 1)
          * im.data_shape 0)] := by
  simp only [export_image_to_fits_c, written_counts]
  split_ifs <;> rfl

set_option maxRecDepth 8192 in
/-- C8, as stated, fails: for the non-negative shape
[65536, 65536, 65536, 32768], whose product is 2^63, on a heap that grants
every request, `export_image_to_fits_c` asks for -2^63 elements to be written
(the `long` product has wrapped).  The `size` field is 0 when its type is `int`
or `unsigned int` (the data buffer is empty) and 2^63 when it is `size_t`:
neither is the count.  When its type is `long`, `size` is -2^63 as the count
is.  For `long` and `size_t` the `calloc` request overflows: `data` is `NULL`
and the image has no data buffer. -/
theorem export_count_exceeds_size :
    (∀ i, 0 ≤ (![65536, 65536, 65536, 32768] : Shape) i) ∧
    [c_int, c_unsigned_int, c_long, c_size_t].map
        (fun t =>
          (allocate_image t 48 Heap.init ![65536, 65536, 65536, 32768]).value.map
            (fun r =>
              (r.2.size,
               written_counts
                 (export_image_to_fits_c scripted [] r.1 r.2 "results/dirty.fits").trace)))
      = [some (0, [-9223372036854775808]),
         some (0, [-9223372036854775808]),
         some (-9223372036854775808, [-9223372036854775808]),
         some (9223372036854775808, [-9223372036854775808])] ∧
    [c_int, c_unsigned_int, c_long, c_size_t].map
        (fun t =>
          (allocate_image t 48 Heap.init ![65536, 65536, 65536, 32768]).value.map
            (fun r => (r.2.data, (r.1.block r.2.data).map (fun b => b.cells))))
      = [some (2, some (some [])), some (2, some (some [])),
         some (NULL, none), some (NULL, none)] := by
  refine ⟨by decide, by decide, by decide⟩

/-- C8, amended: whatever integer type the field `size` has, for a shape with
non-negative components whose product is at most the greatest value of that
type and fits a `long`, on a heap that grants the record, `allocate_image`
returns an image for which the element count `export_image_to_fits_c` asks to
be written (computed in `long`) equals the `size` field, both being the
product of the shape; and the data buffer, when it was allocated, holds
exactly that many elements. -/
theorem export_count_eq_size {σ : Type} (lib : Extern σ) (w : σ) (filename : String)
    (t : IntType) (sizeof_Image : Nat) (h : Heap) (shape : Shape)
    (hpos : ∀ i, 0 ≤ shape i)
    (hfit : shape 0 * shape 1 * shape 2 * shape 3 ≤ t.max_value)
    (hlong : shape 0 * shape 1 * shape 2 * shape 3 < 9223372036854775808)
    (hg : h.granted 1 = true) :
    ∃ h1 img, allocate_image t sizeof_Image h shape = .returned (h1, img) ∧
      written_counts (export_image_to_fits_c lib w h1 img filename).trace = [img.size] ∧
      img.size = shape 0 * shape 1 * shape 2 * shape 3 ∧
      (img.data = NULL ∨
        h1.block img.data
          = some ⟨img.data, img.size.toNat * 8, some (List.replicate img.size.toNat 0)⟩) := by
  have hnn := shape_product_nonneg shape hpos
  have hmin := min_value_nonpos t
  obtain ⟨h1, img, hret, hsize, hshape, hdata⟩ :=
    allocate_image_returns t sizeof_Image h shape hg
  rw [wrap_eq_of_range t _ (by omega) hfit] at hsize
  have hn : to_size_t img.size = img.size.toNat := by
    unfold to_size_t; rw [hsize]; omega
  refine ⟨h1, img, hret, ?_, hsize, ?_⟩
  · rw [export_written_counts, hshape, int64_mul_int64 (shape 3 * shape 2) (shape 1),
      int64_mul_int64 (shape 3 * shape 2 * shape 1) (shape 0), hsize]
    have hcomm : shape 3 * shape 2 * shape 1 * shape 0
        = shape 0 * shape 1 * shape 2 * shape 3 := by ring
    rw [hcomm, int64_eq_of_range _ (by omega) (by omega)]
  · rcases hdata with ⟨hnull, _⟩ | ⟨_, hblk⟩
    · exact Or.inl hnull
    · rw [hn] at hblk
      exact Or.inr hblk

/-- C8, amended, at the shape [1, 1, 2, 2] on the empty heap with the scripted
library and a `size` of type `size_t`. -/
theorem export_count_eq_size_witness :
    ∃ h1 img, allocate_image c_size_t 48 Heap.init ![1, 1, 2, 2] = .returned (h1, img) ∧
      written_counts
          (export_image_to_fits_c scripted [] h1 img "results/dirty.fits").trace
        = [img.size] ∧
      img.size = (![1, 1, 2, 2] : Shape) 0 * (![1, 1, 2, 2] : Shape) 1
        * (![1, 1, 2, 2] : Shape) 2 * (![1, 1, 2, 2] : Shape) 3 ∧
      (img.data = NULL ∨
        h1.block img.data
          = some ⟨img.data, img.size.toNat * 8, some (List.replicate img.size.toNat 0)⟩) :=
  export_count_eq_size scripted [] "results/dirty.fits" c_size_t 48 Heap.init ![1, 1, 2, 2]
    (by decide) (by decide) (by decide) (by decide)

/-! ## C10 : `verify_arl_copy` -/

theorem alloc_granted (h : Heap) (n : Nat) (c : Option (List Nat)) (k : Nat)
    (hg : h.granted (k + 1) = true) :
    ∃ h1, h.alloc n c = (h.next + 1, h1) ∧ h1.granted k = true ∧
      h1.next = h.next + 1 ∧ h1.live = ⟨h.next + 1, n, c⟩ :: h.live := by
  rcases alloc_cases h n c with ⟨_, h2⟩ | ⟨e, _⟩
  · exact absurd h2 (granted_head h k hg)
  · exact ⟨_, e, granted_tail h k hg, rfl, rfl⟩

theorem calloc_one_double (h : Heap) : h.calloc 1 8 = h.alloc (1 * 8) (zeroed 1) := by
  unfold Heap.calloc
  rw [if_neg (by unfold SIZE_LIMIT; omega)]

theorem main_vis_malloc_size_driver (p : Ptr) :
    main_vis_malloc_size { nvis := 13695, npol := 1, data := p } = 1753032 := by
  rfl

/-- C9, as stated, fails: on a heap that grants every request, the two
visibility data buffers `main` allocates have 1753032 bytes each, not the
72 + 32 * 1 * 13695 = 438312 bytes of the formula `verify_arl_copy` uses. -/
theorem main_vis_buffers_not_formula :
    (main_setup 24 64 Heap.init).value.map
        (fun r =>
          (r.2.vt_rec.nvis, r.2.vt_rec.npol,
           (r.1.block r.2.vt_rec.data).map (fun b => b.nbytes),
           (r.1.block r.2.vtmp_rec.data).map (fun b => b.nbytes),
           ARLVisDataSize r.2.vt_rec))
      = some (13695, 1, some 1753032, some 1753032, 438312) ∧
    (72 + 32 * 1 * 13695 : Int) = 438312 ∧
    (1753032 : Nat) ≠ 438312 := by
  refine ⟨by decide, by decide, by decide⟩

/-- C9, amended: on every heap that grants the nine requests of the set-up,
`main` sets nvis = 13695 and npol = 1 and allocates each visibility data buffer
(`vt->data` and `vtmp->data`) with 72 + 4 * (32 * npol * nvis) = 1753032
bytes; the byte count `verify_arl_copy` uses for these values is
72 + 32 * npol * nvis = 438312, which the buffers cover. -/
theorem main_vis_buffers_size (sizeof_ARLVis sizeof_ARLConf : Nat) (h : Heap)
    (hg : h.granted 9 = true) :
    ∃ h1 s, main_setup sizeof_ARLVis sizeof_ARLConf h = .returned (h1, s) ∧
      s.vt_rec.nvis = 13695 ∧ s.vt_rec.npol = 1 ∧
      (h1.block s.vt_rec.data).map (fun b => b.nbytes) = some 1753032 ∧
      (h1.block s.vtmp_rec.data).map (fun b => b.nbytes) = some 1753032 ∧
      ((1753032 : Nat) : Int) = 72 + 4 * (32 * s.vt_rec.npol * s.vt_rec.nvis) ∧
      ARLVisDataSize s.vt_rec = 72 + 32 * s.vt_rec.npol * s.vt_rec.nvis ∧
      ARLVisDataSize s.vt_rec = 438312 := by
  obtain ⟨h1, e1, g1, n1, l1⟩ := alloc_granted h (4 * 4) none 8 hg
  obtain ⟨h2, e2, g2, n2, l2⟩ := alloc_granted h1 (1 * 8) (zeroed 1) 7 g1
  obtain ⟨h3, e3, g3, n3, l3⟩ := alloc_granted h2 (1 * 8) none 6 g2
  obtain ⟨h4, e4, g4, n4, l4⟩ := alloc_granted h3 (1 * 8) none 5 g3
  obtain ⟨h5, e5, g5, n5, l5⟩ := alloc_granted h4 sizeof_ARLVis none 4 g4
  obtain ⟨h6, e6, g6, n6, l6⟩ := alloc_granted h5 sizeof_ARLVis none 3 g5
  obtain ⟨h7, e7, g7, n7, l7⟩ := alloc_granted h6 sizeof_ARLConf none 2 g6
  obtain ⟨h8, e8, g8, n8, l8⟩ := alloc_granted h7 1753032 none 1 g7
  obtain ⟨h9, e9, g9, n9, l9⟩ := alloc_granted h8 1753032 none 0 g8
  simp only [main_setup, Heap.malloc, calloc_one_double, main_vis_malloc_size_driver,
    e1, e2, e3, e4, e5, e6, e7, e8, e9, NULL, Nat.add_one_ne_zero, if_false, or_self]
  refine ⟨_, _, rfl, rfl, rfl, ?_, ?_, rfl, rfl, rfl⟩
  · simp only [Heap.block, l9, l8]
    rw [find_skip _ _ _ (by dsimp only; omega), find_hit]
    · rfl
    · rfl
  · simp only [Heap.block, l9]
    rw [find_hit]
    · rfl
    · rfl

/-- C9, amended, on the empty heap. -/
theorem main_vis_buffers_size_witness :
    ∃ h1 s, main_setup 24 64 Heap.init = .returned (h1, s) ∧
      s.vt_rec.nvis = 13695 ∧ s.vt_rec.npol = 1 ∧
      (h1.block s.vt_rec.data).map (fun b => b.nbytes) = some 1753032 ∧
      (h1.block s.vtmp_rec.data).map (fun b => b.nbytes) = some 1753032 ∧
      ((1753032 : Nat) : Int) = 72 + 4 * (32 * s.vt_rec.npol * s.vt_rec.nvis) ∧
      ARLVisDataSize s.vt_rec = 72 + 32 * s.vt_rec.npol * s.vt_rec.nvis ∧
      ARLVisDataSize s.vt_rec = 438312 :=
  main_vis_buffers_size 24 64 Heap.init (by decide)

end FfiDemo
